import Mathlib

/-!
Shallow embedding of the revenue-calculation core of `dashboard.py`
(PV revenue calculator).  Timestamps of the hourly pipeline are modelled
by `HTime` (calendar year, calendar month, and an hour slot inside the
month); raw production input for the normalizer is modelled on a
minute-resolution `Nat` axis.  Money and energy amounts are rationals;
pandas `.round(2)` (numpy round-half-to-even) is modelled by `round2`.
-/

namespace Wirtschaftlichkeit

/-- Round a rational to the nearest integer, ties to even
(the rounding used by numpy/pandas `.round`). -/
def roundHalfEven (x : Rat) : Int :=
  let f := ⌊x⌋
  let r := x - (f : Rat)
  if r < 1/2 then f
  else if 1/2 < r then f + 1
  else if f % 2 = 0 then f else f + 1

/-- pandas `.round(2)`: round to two decimal places. -/
def round2 (x : Rat) : Rat := (roundHalfEven (x * 100) : Rat) / 100

/-- `ANZULEGENDER_WERT = 6.72` (dashboard.py line 39). -/
def ANZULEGENDER_WERT : Rat := 672/100

/-- The `market_values_yearly` dict (dashboard.py lines 37-38);
the 2025 entry is a copy of the 2024 one. -/
def marketValuesYearly : Nat → Option Rat := fun y =>
  if y = 2021 then some (7552/1000)
  else if y = 2022 then some (22306/1000)
  else if y = 2023 then some (72/10)
  else if y = 2024 then some (4624/1000)
  else if y = 2025 then some (4624/1000)
  else none

/-- `market_values_yearly[2025]`, accessed directly in the forecast branch. -/
def mvYearly2025 : Rat := 4624/1000

/-- An hourly timestamp: calendar year, calendar month (1..12) and the
hour slot inside that month.  `.dt.year` / `.dt.month` of the source
become the `year` / `month` fields; `pd.DateOffset(years=1)` becomes
`year + 1`. -/
structure HTime where
  year : Nat
  month : Nat
  slot : Nat
deriving DecidableEq

/-- One row of a preprocessed production frame: index `Time (CET)` and
column `Yield (kwH)`. -/
structure ProductionRecord where
  time : HTime
  yieldKwh : Rat
deriving DecidableEq

/-- One row of a preprocessed price frame: index `Time (CET)` and column
`Spotmarktpreis in ct/kWh`.  (The source frame also carries the monthly /
yearly market-value and reference-value columns, which `update_output`
never reads - it uses the module-level tables instead - so they are
omitted here.) -/
structure PriceRecord where
  time : HTime
  spot : Rat
deriving DecidableEq

/-- One row of the inner-joined frame `pd.merge(df_pv, df_price,
on="Time (CET)", how="inner")`: the timestamp with the yield and spot
price columns used by the calculations. -/
structure MergedRecord where
  time : HTime
  yieldKwh : Rat
  spot : Rat
deriving DecidableEq

/-- `pd.merge(..., on="Time (CET)", how="inner")`: for every production
row, every price row with the same timestamp, in left-then-right order. -/
def merge (pv : List ProductionRecord) (price : List PriceRecord) : List MergedRecord :=
  pv.flatMap (fun p =>
    (price.filter (fun q => q.time = p.time)).map
      (fun q => { time := p.time, yieldKwh := p.yieldKwh, spot := q.spot }))

/-- `df_merged['Yield (kwH)'].sum()`. -/
def totalProduction (m : List MergedRecord) : Rat :=
  (m.map (fun r => r.yieldKwh)).sum

/-- Line 194 / 221 / 261: `(df[df.spot >= 0].Yield * df[df.spot >= 0].spot).sum() / 100`
(revenue in EUR, restricted to records with non-negative spot price). -/
def spotRevenueEuro (m : List MergedRecord) : Rat :=
  ((m.filter (fun r => 0 ≤ r.spot)).map (fun r => r.yieldKwh * r.spot)).sum / 100

/-- Line 199 / 225 / 264: `df[df.spot >= 0]['Yield (kwH)'].sum()`. -/
def eligibleProduction (m : List MergedRecord) : Rat :=
  ((m.filter (fun r => 0 ≤ r.spot)).map (fun r => r.yieldKwh)).sum

/-- Lines 196-200: the yearly premium top-up in EUR.  The premium applies
only when the year's yearly market value is defined and below
`ANZULEGENDER_WERT`; it is paid on the production of non-negative-price
hours. -/
def additionalRevenueYearly (mv? : Option Rat) (m : List MergedRecord) : Rat :=
  match mv? with
  | none => 0
  | some mv =>
      if mv < ANZULEGENDER_WERT then
        eligibleProduction m * (ANZULEGENDER_WERT - mv) / 100
      else 0

/-- Lines 202-203: specific revenue of the yearly market-premium variant,
in ct/kWh rounded to 2 decimals. -/
def specificRevenueYear (m : List MergedRecord) (mv? : Option Rat) : Rat :=
  round2 ((spotRevenueEuro m + additionalRevenueYearly mv? m) / totalProduction m * 100)

/-- The `Jahr` label of a yearly result row: `str(year)` for a historical
year, the literal `'2025 (Forecast)'` for the forecast row. -/
inductive Jahr where
  | year (y : Nat)
  | forecast2025
deriving DecidableEq

/-- One entry of `yearly_results` (lines 205 / 230). -/
structure YearlyRow where
  projekt : String
  jahr : Jahr
  spezErloesMPJahr : Rat
deriving DecidableEq

/-- Dict lookup `price_dfs[year]` / membership `year in price_dfs`. -/
def priceLookup (dfs : List (Nat × List PriceRecord)) (y : Nat) : Option (List PriceRecord) :=
  (dfs.find? (fun p => p.1 = y)).map (fun p => p.2)

/-- `df_pv[df_pv['Time (CET)'].dt.year == year]`. -/
def pvYear (pv : List ProductionRecord) (y : Nat) : List ProductionRecord :=
  pv.filter (fun r => r.time.year = y)

/-- `year in df_pv['Time (CET)'].dt.year.unique()`. -/
def hasYear (pv : List ProductionRecord) (y : Nat) : Bool :=
  pv.any (fun r => r.time.year = y)

/-- The merged record set of a project and a historical year (lines 189-190),
with an empty price frame when the year has no loaded prices. -/
def mergedFor (dfs : List (Nat × List PriceRecord)) (pv : List ProductionRecord)
    (y : Nat) : List MergedRecord :=
  merge (pvYear pv y) ((priceLookup dfs y).getD [])

/-- Lines 186-205: the (optional) yearly result row of one historical year. -/
def histRow (dfs : List (Nat × List PriceRecord)) (name : String)
    (pv : List ProductionRecord) (y : Nat) : Option YearlyRow :=
  match priceLookup dfs y with
  | none => none
  | some priceDf =>
      if hasYear pv y then
        let m := merge (pvYear pv y) priceDf
        if totalProduction m = 0 then none
        else some { projekt := name, jahr := Jahr.year y,
                    spezErloesMPJahr := specificRevenueYear m (marketValuesYearly y) }
      else none

/-- `pd.DateOffset(years=1)` on an hourly timestamp. -/
def shiftYearPlusOne (t : HTime) : HTime :=
  { year := t.year + 1, month := t.month, slot := t.slot }

/-- Lines 209-212 / 244-247: the synthetic forecast-year price series -
the forecast year's partial real prices concatenated with the prior
year's months >= 10 shifted forward by one year. -/
def synthPrices (p25 p24 : List PriceRecord) : List PriceRecord :=
  p25 ++ (p24.filter (fun r => 10 ≤ r.time.month)).map
    (fun r => { r with time := shiftYearPlusOne r.time })

/-- Lines 214-216 / 249-251: the prior year's production shifted forward
by one year. -/
def forecastPv (pv : List ProductionRecord) : List ProductionRecord :=
  (pvYear pv 2024).map (fun r => { r with time := shiftYearPlusOne r.time })

/-- The merged record set of the forecast year (line 218 / 252). -/
def forecastMerged (dfs : List (Nat × List PriceRecord))
    (pv : List ProductionRecord) : List MergedRecord :=
  merge (forecastPv pv)
    (synthPrices ((priceLookup dfs 2025).getD []) ((priceLookup dfs 2024).getD []))

/-- Lines 208-230: the (optional) forecast yearly result row. -/
def forecastRow (dfs : List (Nat × List PriceRecord)) (name : String)
    (pv : List ProductionRecord) : Option YearlyRow :=
  match priceLookup dfs 2025, priceLookup dfs 2024 with
  | some p25, some p24 =>
      if hasYear pv 2024 then
        let m := merge (forecastPv pv) (synthPrices p25 p24)
        if 0 < totalProduction m then
          some { projekt := name, jahr := Jahr.forecast2025,
                 spezErloesMPJahr := specificRevenueYear m (some mvYearly2025) }
        else none
      else none
  | _, _ => none

/-- All yearly result rows of one project: the four historical years,
then the forecast row. -/
def rowsForProject (dfs : List (Nat × List PriceRecord)) (name : String)
    (pv : List ProductionRecord) : List YearlyRow :=
  ([2021, 2022, 2023, 2024].filterMap (histRow dfs name pv)) ++ (forecastRow dfs name pv).toList

/-- Lines 181-230: `yearly_results` across all available projects. -/
def yearlyRows (dfs : List (Nat × List PriceRecord))
    (projects : List (String × List ProductionRecord)) : List YearlyRow :=
  projects.flatMap (fun pr => rowsForProject dfs pr.1 pr.2)

/-- The merged record set underlying a yearly result label: historical
join for `Jahr.year y`, the forecast join for `Jahr.forecast2025`. -/
def mergedOf (dfs : List (Nat × List PriceRecord)) (pv : List ProductionRecord) :
    Jahr → List MergedRecord
  | Jahr.year y => mergedFor dfs pv y
  | Jahr.forecast2025 => forecastMerged dfs pv

/-- One entry of `monthly_results` (lines 271-279).  The source stores
`Produktion`, `Produktion bei Negativpreis`, and the two `Umsatz` values
as display-formatted strings; the numeric values are kept here. -/
structure MonthlyRow where
  monat : Nat
  produktionKwh : Rat
  produktionNegPreisKwh : Rat
  umsatzSpotEuro : Rat
  umsatzMpJahrEuro : Rat
  spezErloesSpot : Rat
  spezErloesMPJahr : Rat
deriving DecidableEq

/-- Lines 254-279: the monthly breakdown entry of one calendar month of
the merged forecast data. -/
def monthlyRow (merged : List MergedRecord) (month : Nat) : MonthlyRow :=
  let monthData := merged.filter (fun r => r.time.month = month)
  let totalProd := totalProduction monthData
  let prodNegPrice := ((monthData.filter (fun r => r.spot < 0)).map (fun r => r.yieldKwh)).sum
  let revSpot := if 0 < totalProd then spotRevenueEuro monthData else 0
  let addRevYearly := if 0 < totalProd then additionalRevenueYearly (some mvYearly2025) monthData else 0
  let totalRevMp := revSpot + addRevYearly
  { monat := month
    produktionKwh := totalProd
    produktionNegPreisKwh := prodNegPrice
    umsatzSpotEuro := revSpot
    umsatzMpJahrEuro := totalRevMp
    spezErloesSpot := if 0 < totalProd then round2 (revSpot / totalProd * 100) else 0
    spezErloesMPJahr := if 0 < totalProd then round2 (totalRevMp / totalProd * 100) else 0 }

/-- `for month in range(1, 13): ...` - the twelve monthly entries. -/
def monthlyRows (merged : List MergedRecord) : List MonthlyRow :=
  (List.range' 1 12).map (monthlyRow merged)

/-- Lines 159-161: validate the dropdown selection against the available
project names; an invalid or empty selection falls back to the first
available project (or `none` when there is none). -/
def resolveSelection (sel : Option String) (names : List String) : Option String :=
  if (match sel with | some s => names.contains s | none => false) then sel
  else names.head?

/-- `all_production_dfs.get(current_selected_project)` (line 241). -/
def selectedPvLookup (projects : List (String × List ProductionRecord))
    (sel : Option String) : Option (List ProductionRecord) :=
  sel.bind (fun n => (projects.find? (fun pr => pr.1 = n)).map (fun pr => pr.2))

/-- Lines 239-279: the monthly breakdown of the selected project; empty
when the guard of line 242 fails. -/
def monthlyForSelected (dfs : List (Nat × List PriceRecord))
    (projects : List (String × List ProductionRecord))
    (sel : Option String) : List MonthlyRow :=
  match selectedPvLookup projects sel with
  | none => []
  | some pv =>
      match priceLookup dfs 2025, priceLookup dfs 2024 with
      | some p25, some p24 =>
          if hasYear pv 2024 then
            monthlyRows (merge (forecastPv pv) (synthPrices p25 p24))
          else []
      | _, _ => []

/-- What the callback hands back: either the uncaught `KeyError` raised at
line 283 (`monthly_df['Monat']` on a column-less empty frame, reached
exactly when `monthly_results` is empty), or the rendered page holding
the yearly summary rows and the monthly rows.  No other outcome - in
particular no dedicated "no results" message - exists in the source. -/
inductive CallbackOutput where
  | keyErrorMonat
  | page (summary : List YearlyRow) (monthly : List MonthlyRow)
deriving DecidableEq

/-- Lines 146-310 (`update_output`, upload-free path): the end-to-end
callback on the loaded price frames, the active example projects and the
dropdown selection. -/
def update_output (dfs : List (Nat × List PriceRecord))
    (projects : List (String × List ProductionRecord))
    (selected : Option String) : CallbackOutput :=
  let current := resolveSelection selected (projects.map (fun pr => pr.1))
  let summary := yearlyRows dfs projects
  let monthly := monthlyForSelected dfs projects current
  if monthly.isEmpty then CallbackOutput.keyErrorMonat
  else CallbackOutput.page summary monthly

/-! ### The production normalizer (`preprocess_pv_data`, lines 77-84)

Raw input rows are `(minute timestamp, yield)` pairs on a UTC minute
axis.  `resample('h').sum()` buckets rows by hour, sums each bucket, and
produces one row per hour from the first to the last occupied bucket
(intervening empty hours get sum 0). -/

/-- The hour bucket of a minute timestamp (`resample('h')` flooring). -/
def bucketOf (t : Nat) : Nat := t / 60

/-- The sum of the yields of the rows falling in hour bucket `h`. -/
def bucketSum (l : List (Nat × Rat)) (h : Nat) : Rat :=
  ((l.filter (fun p => bucketOf p.1 = h)).map (fun p => p.2)).sum

/-- `resample('h').sum()`: one output row per hour from the first to the
last occupied bucket, carrying the bucket sum (0 for empty buckets). -/
def resampleHourly (l : List (Nat × Rat)) : List (Nat × Rat) :=
  if l.isEmpty then []
  else
    let bks := l.map (fun p => bucketOf p.1)
    let lo := bks.foldl min (bks.headD 0)
    let hi := bks.foldl max (bks.headD 0)
    (List.range' lo (hi + 1 - lo)).map (fun h => (h * 60, bucketSum l h))

/-- Line 80: `df['Yield (kwH)'].apply(lambda x: max(x, 0.0))`. -/
def clampYields (l : List (Nat × Rat)) : List (Nat × Rat) :=
  l.map (fun p => (p.1, max p.2 0))

/-- Lines 77-84: clamp negative yields to zero, resample to hourly sums,
then shift the timestamps by one hour (UTC to CET). -/
def preprocess_pv_data (l : List (Nat × Rat)) : List (Nat × Rat) :=
  (resampleHourly (clampYields l)).map (fun p => (p.1 + 60, p.2))

/-! ### Spec-side definitions used to compare against the code -/

/-- The spot-market specific revenue as the spec words it: the sum of
yield times spot price over ALL records - negative prices included -
divided by total production, in ct/kWh rounded to 2 decimals.  (Written
from the spec, to be compared with the source's computation.) -/
def spotSpecificRevenueAllRecords (m : List MergedRecord) : Rat :=
  round2 ((m.map (fun r => r.yieldKwh * r.spot)).sum / totalProduction m)

/-- The hourly market-premium model as the spec words it: spot revenue
restricted to non-negative-price records, plus a per-record premium
`yield * max(reference_value - spot, 0)` forced to zero when the record's
spot price is negative; divided by total production, rounded to 2
decimals.  (Written from the spec; no corresponding computation exists in
the source.) -/
def specificRevenueHourlyMP (m : List MergedRecord) : Rat :=
  let spotPart := ((m.filter (fun r => 0 ≤ r.spot)).map (fun r => r.yieldKwh * r.spot)).sum
  let premiumPart := (m.map (fun r =>
    if r.spot < 0 then 0 else r.yieldKwh * max (ANZULEGENDER_WERT - r.spot) 0)).sum
  round2 ((spotPart + premiumPart) / totalProduction m)

/-! ### Concrete inputs used by counterexamples and witnesses -/

/-- Two merged January-2025 hours: 100 kWh at 10 ct/kWh and 100 kWh at
-5 ct/kWh (the negative-price scenario of the spec). -/
def cexC1 : List MergedRecord :=
  [{ time := { year := 2025, month := 1, slot := 0 }, yieldKwh := 100, spot := 10 },
   { time := { year := 2025, month := 1, slot := 1 }, yieldKwh := 100, spot := -5 }]

/-- A single merged January-2025 hour: 100 kWh at 3 ct/kWh. -/
def cexC3 : List MergedRecord :=
  [{ time := { year := 2025, month := 1, slot := 0 }, yieldKwh := 100, spot := 3 }]

/-- A single merged January-2025 hour of 100 kWh at 10 ct/kWh
(concrete input for witnesses). -/
def wMerged : List MergedRecord :=
  [{ time := { year := 2025, month := 1, slot := 0 }, yieldKwh := 100, spot := 10 }]

/-- Forecast-year price records covering months 1..9 (concrete witness input). -/
def w25 : List PriceRecord :=
  (List.range' 1 9).map (fun m => { time := { year := 2025, month := m, slot := 0 }, spot := 0 })

/-- Prior-year price records covering months 10..12 (concrete witness input). -/
def w24 : List PriceRecord :=
  (List.range' 10 3).map (fun m => { time := { year := 2024, month := m, slot := 0 }, spot := 0 })

/-- One loaded price year, 2021, with a single hour at 10 ct/kWh
(concrete witness input). -/
def dfsW : List (Nat × List PriceRecord) :=
  [(2021, [{ time := { year := 2021, month := 1, slot := 0 }, spot := 10 }])]

/-- A production series with a single 2021 hour of 100 kWh
(concrete witness input). -/
def pvW : List ProductionRecord :=
  [{ time := { year := 2021, month := 1, slot := 0 }, yieldKwh := 100 }]

/-- A single project named "A" (concrete witness input). -/
def projectsW : List (String × List ProductionRecord) := [("A", pvW)]

/-- The yearly result row the witness inputs produce. -/
def rowW : YearlyRow :=
  { projekt := "A", jahr := Jahr.year 2021,
    spezErloesMPJahr := specificRevenueYear (mergedFor dfsW pvW 2021) (marketValuesYearly 2021) }

/-! ## Helper lemmas -/

theorem round2_eq_low (x : Rat) (n : Int) (h1 : (n : Rat) ≤ x * 100)
    (h2 : x * 100 - n < 1/2) : round2 x = (n : Rat) / 100 := by
  have hfl : ⌊x * 100⌋ = n := Int.floor_eq_iff.mpr ⟨h1, by linarith⟩
  simp only [round2, roundHalfEven, hfl]
  rw [if_pos h2]

theorem round2_eq_high (x : Rat) (n : Int) (h1 : (n : Rat) ≤ x * 100)
    (h2 : 1/2 < x * 100 - n) (h3 : x * 100 < n + 1) :
    round2 x = ((n + 1 : Int) : Rat) / 100 := by
  have hfl : ⌊x * 100⌋ = n := Int.floor_eq_iff.mpr ⟨h1, by linarith⟩
  simp only [round2, roundHalfEven, hfl]
  rw [if_neg (by linarith), if_pos h2]

theorem keys_nodup_eq {β : Type} {l : List (String × β)} {p : String} {a b : β}
    (hnd : (l.map (fun pr => pr.1)).Nodup) (ha : (p, a) ∈ l) (hb : (p, b) ∈ l) :
    a = b := by
  induction l with
  | nil => cases ha
  | cons q t ih =>
    rw [List.map_cons, List.nodup_cons] at hnd
    rcases List.mem_cons.mp ha with ha1 | ha2 <;> rcases List.mem_cons.mp hb with hb1 | hb2
    · rw [← ha1] at hb1
      exact congrArg Prod.snd hb1.symm
    · exfalso
      exact hnd.1 (ha1 ▸ (List.mem_map.mpr ⟨(p, b), hb2, rfl⟩))
    · exfalso
      exact hnd.1 (hb1 ▸ (List.mem_map.mpr ⟨(p, a), ha2, rfl⟩))
    · exact ih hnd.2 ha2 hb2

/-! ## Claims -/

/-- Claim C7: for every selection input and every non-empty available
project set, a selected project name that is not in the available set is
deterministically replaced by the first available project; the
computation is total (never raises). -/
theorem stale_selection_falls_back (sel : Option String) (names : List String)
    (hne : names ≠ []) (hsel : ∀ s, sel = some s → s ∉ names) :
    resolveSelection sel names = names.head? ∧ (names.head?).isSome = true := by
  constructor
  · cases sel with
    | none => simp [resolveSelection]
    | some s =>
      have hs : s ∉ names := hsel s rfl
      simp [resolveSelection, hs]
  · cases names with
    | nil => exact absurd rfl hne
    | cons a t => rfl

/-- Claim C8 (code_bug evidence): on a calculation request with zero
available projects the callback does not return a "no results" message;
it reaches the `monthly_df['Monat']` access on an empty, column-less
frame and raises an uncaught `KeyError`. -/
theorem update_output_empty_projects_keyerror :
    update_output [] [] none = CallbackOutput.keyErrorMonat := rfl

/-- Claim C10: the monthly forecast breakdown always contains exactly 12
entries, one per calendar month 1..12, and a month whose merged data has
zero total production still appears, with production 0 and both specific
revenues 0. -/
theorem monthly_breakdown_all_months (merged : List MergedRecord) :
    (monthlyRows merged).length = 12 ∧
    (monthlyRows merged).map (fun row => row.monat) = List.range' 1 12 ∧
    ∀ row ∈ monthlyRows merged,
      totalProduction (merged.filter (fun r => r.time.month = row.monat)) = 0 →
      row.produktionKwh = 0 ∧ row.spezErloesSpot = 0 ∧ row.spezErloesMPJahr = 0 := by
  refine ⟨by simp [monthlyRows], ?_, ?_⟩
  · simp only [monthlyRows, List.map_map]
    exact List.map_id' _
  · intro row hrow h0
    rw [monthlyRows] at hrow
    obtain ⟨mo, _, rfl⟩ := List.mem_map.mp hrow
    have hmonat : (monthlyRow merged mo).monat = mo := rfl
    rw [hmonat] at h0
    refine ⟨by simpa [monthlyRow] using h0, ?_, ?_⟩ <;>
      simp [monthlyRow, h0]

/-- Claim C2: for every merged record set with positive total production,
the yearly premium variant's specific revenue equals the spot revenue
summed over the records with non-negative spot price, plus a premium of
`max(reference_value - yearly_market_value, 0)` on the total yield of the
non-negative-price records, divided by total production and rounded to
two decimals. -/
theorem yearly_premium_variant_formula (m : List MergedRecord) (mv : Rat)
    (h : 0 < totalProduction m) :
    specificRevenueYear m (some mv) =
      round2 ((((m.filter (fun r => 0 ≤ r.spot)).map (fun r => r.yieldKwh * r.spot)).sum
        + max (ANZULEGENDER_WERT - mv) 0
          * ((m.filter (fun r => 0 ≤ r.spot)).map (fun r => r.yieldKwh)).sum)
        / totalProduction m) := by
  have hT : totalProduction m ≠ 0 := ne_of_gt h
  simp only [specificRevenueYear, additionalRevenueYearly, spotRevenueEuro, eligibleProduction]
  congr 1
  by_cases hmv : mv < ANZULEGENDER_WERT
  · rw [if_pos hmv, max_eq_left (by linarith)]
    field_simp
    ring
  · rw [if_neg hmv, max_eq_right (by linarith [not_lt.mp hmv])]
    field_simp
    ring

/-- Claim C1 (amended): the spot-market specific revenue is computed over
only the records with non-negative spot price, divided by total
production and rounded to two decimals; a negative-price hour contributes
nothing to the spot revenue sum (not its negative amount), while its
production still counts in the divisor. -/
theorem spot_revenue_ignores_negative_hours (md : List MergedRecord) (mo : Nat)
    (hmo : ∀ r ∈ md, r.time.month = mo) (h : 0 < totalProduction md) :
    (monthlyRow md mo).spezErloesSpot =
      round2 ((((md.filter (fun r => 0 ≤ r.spot)).map (fun r => r.yieldKwh * r.spot)).sum)
        / totalProduction md) ∧
    ∀ r : MergedRecord, r.spot < 0 →
      (((r :: md).filter (fun x => 0 ≤ x.spot)).map (fun x => x.yieldKwh * x.spot)).sum =
        ((md.filter (fun x => 0 ≤ x.spot)).map (fun x => x.yieldKwh * x.spot)).sum := by
  have hfil : md.filter (fun r => r.time.month = mo) = md :=
    List.filter_eq_self.mpr (fun a ha => by simp [hmo a ha])
  constructor
  · have hT : totalProduction md ≠ 0 := ne_of_gt h
    simp only [monthlyRow, hfil]
    rw [if_pos h, if_pos h]
    simp only [spotRevenueEuro]
    congr 1
    field_simp
    ring
  · intro r hr
    rw [List.filter_cons_of_neg (by simp [not_le.mpr hr])]

/-- Claim C1 (counterexample): on two merged hours of 100 kWh at
10 ct/kWh and 100 kWh at -5 ct/kWh, the program's spot-market specific
revenue is 5 ct/kWh, while the spec's all-records formula
(negative prices included) gives 2.5 ct/kWh. -/
theorem spot_allrecords_cex :
    (monthlyRow cexC1 1).spezErloesSpot = 5 ∧
    spotSpecificRevenueAllRecords cexC1 = 5/2 ∧ ((5 : Rat) ≠ 5/2) := by
  have e1 : cexC1.filter (fun r => r.time.month = 1) = cexC1 := rfl
  have e2 : totalProduction cexC1 = 200 := by norm_num [totalProduction, cexC1]
  have e3 : spotRevenueEuro cexC1 = 10 := by
    norm_num [spotRevenueEuro, cexC1, List.filter]
  refine ⟨?_, ?_, by norm_num⟩
  · simp only [monthlyRow, e1, e2, e3]
    rw [if_pos (by norm_num), if_pos (by norm_num)]
    have ha : (10 : Rat) / 200 * 100 = 5 := by norm_num
    rw [ha, round2_eq_low 5 500 (by norm_num) (by norm_num)]
    norm_num
  · simp only [spotSpecificRevenueAllRecords, e2]
    have ha : ((cexC1.map (fun r => r.yieldKwh * r.spot)).sum : Rat) = 500 := by
      norm_num [cexC1]
    rw [ha]
    have hb : (500 : Rat) / 200 = 5/2 := by norm_num
    rw [hb, round2_eq_low (5/2) 250 (by norm_num) (by norm_num)]
    norm_num

/-- Claim C3 (amended): every market-premium figure the program outputs
uses the flat yearly premium variant `max(reference_value - yearly
market value, 0)`; in the monthly breakdown the premium figure equals the
yearly-variant formula, not a per-hour premium. -/
theorem monthly_premium_is_yearly_variant (md : List MergedRecord) (mo : Nat)
    (hmo : ∀ r ∈ md, r.time.month = mo) (h : 0 < totalProduction md) :
    (monthlyRow md mo).spezErloesMPJahr =
      round2 ((((md.filter (fun r => 0 ≤ r.spot)).map (fun r => r.yieldKwh * r.spot)).sum
        + max (ANZULEGENDER_WERT - mvYearly2025) 0
          * ((md.filter (fun r => 0 ≤ r.spot)).map (fun r => r.yieldKwh)).sum)
        / totalProduction md) := by
  have hfil : md.filter (fun r => r.time.month = mo) = md :=
    List.filter_eq_self.mpr (fun a ha => by simp [hmo a ha])
  have hT : totalProduction md ≠ 0 := ne_of_gt h
  have hmv : mvYearly2025 < ANZULEGENDER_WERT := by
    norm_num [mvYearly2025, ANZULEGENDER_WERT]
  simp only [monthlyRow, hfil]
  rw [if_pos h, if_pos h, if_pos h]
  simp only [additionalRevenueYearly, spotRevenueEuro, eligibleProduction]
  rw [if_pos hmv, max_eq_left (by linarith)]
  congr 1
  field_simp
  ring

/-- Claim C3 (counterexample): on a single merged hour of 100 kWh at
3 ct/kWh, the spec's hourly market-premium formula gives 6.72 ct/kWh, a
value that equals none of the revenue figures the program computes for
that input (monthly premium 5.10, monthly spot 3, yearly premium 5.10):
the hourly formula is not reproduced in the output. -/
theorem hourly_premium_absent_cex :
    specificRevenueHourlyMP cexC3 ≠ (monthlyRow cexC3 1).spezErloesMPJahr ∧
    specificRevenueHourlyMP cexC3 ≠ (monthlyRow cexC3 1).spezErloesSpot ∧
    specificRevenueHourlyMP cexC3 ≠ specificRevenueYear cexC3 (some mvYearly2025) := by
  have e1 : cexC3.filter (fun r => r.time.month = 1) = cexC3 := rfl
  have e2 : totalProduction cexC3 = 100 := by norm_num [totalProduction, cexC3]
  have e3 : spotRevenueEuro cexC3 = 3 := by norm_num [spotRevenueEuro, cexC3, List.filter]
  have e4 : additionalRevenueYearly (some mvYearly2025) cexC3 = 262/125 := by
    rw [additionalRevenueYearly, if_pos (by norm_num [mvYearly2025, ANZULEGENDER_WERT])]
    norm_num [eligibleProduction, cexC3, List.filter, ANZULEGENDER_WERT, mvYearly2025]
  have eH : specificRevenueHourlyMP cexC3 = 168/25 := by
    simp only [specificRevenueHourlyMP, e2]
    have ha : ((cexC3.filter (fun r => 0 ≤ r.spot)).map (fun r => r.yieldKwh * r.spot)).sum
        = (300 : Rat) := by norm_num [cexC3, List.filter]
    have hb : (cexC3.map (fun r =>
        if r.spot < 0 then 0 else r.yieldKwh * max (ANZULEGENDER_WERT - r.spot) 0)).sum
        = (372 : Rat) := by
      norm_num [cexC3, ANZULEGENDER_WERT, max_eq_left]
    rw [ha, hb]
    have hc : ((300 : Rat) + 372) / 100 = 168/25 := by norm_num
    rw [hc, round2_eq_low (168/25) 672 (by norm_num) (by norm_num)]
    norm_num
  have eM : (monthlyRow cexC3 1).spezErloesMPJahr = 51/10 := by
    simp only [monthlyRow, e1, e2, e3, e4]
    rw [if_pos (by norm_num), if_pos (by norm_num), if_pos (by norm_num)]
    have ha : ((3 : Rat) + 262/125) / 100 * 100 = 637/125 := by norm_num
    rw [ha, round2_eq_high (637/125) 509 (by norm_num) (by norm_num) (by norm_num)]
    norm_num
  have eS : (monthlyRow cexC3 1).spezErloesSpot = 3 := by
    simp only [monthlyRow, e1, e2, e3]
    rw [if_pos (by norm_num), if_pos (by norm_num)]
    have ha : (3 : Rat) / 100 * 100 = 3 := by norm_num
    rw [ha, round2_eq_low 3 300 (by norm_num) (by norm_num)]
    norm_num
  have eY : specificRevenueYear cexC3 (some mvYearly2025) = 51/10 := by
    simp only [specificRevenueYear, e2, e3, e4]
    have ha : ((3 : Rat) + 262/125) / 100 * 100 = 637/125 := by norm_num
    rw [ha, round2_eq_high (637/125) 509 (by norm_num) (by norm_num) (by norm_num)]
    norm_num
  rw [eH, eM, eS, eY]
  norm_num

theorem mem_resample_snd {l : List (Nat × Rat)} {q : Nat × Rat}
    (hq : q ∈ resampleHourly l) : ∃ hh, q.2 = bucketSum l hh := by
  unfold resampleHourly at hq
  split at hq
  · simp at hq
  · obtain ⟨hh, _, rfl⟩ := List.mem_map.mp hq
    exact ⟨hh, rfl⟩

theorem bucketSum_nonneg {l : List (Nat × Rat)} (hh : Nat)
    (hl : ∀ p ∈ l, 0 ≤ p.2) : 0 ≤ bucketSum l hh := by
  apply List.sum_nonneg
  intro x hx
  obtain ⟨p, hp, rfl⟩ := List.mem_map.mp hx
  exact hl p (List.mem_filter.mp hp).1

theorem clampYields_nonneg {l : List (Nat × Rat)} :
    ∀ p ∈ clampYields l, 0 ≤ p.2 := by
  intro p hp
  obtain ⟨p', _, rfl⟩ := List.mem_map.mp hp
  exact le_max_right _ _

/-- Claim C4: every yield value in the normalized production output is
non-negative, even when source readings are negative: raw yields are
clamped to zero before the hourly sum-resampling, so every output bucket
is a sum of non-negative values. -/
theorem preprocess_pv_yield_nonneg (l : List (Nat × Rat)) (q : Nat × Rat)
    (hq : q ∈ preprocess_pv_data l) : 0 ≤ q.2 := by
  obtain ⟨q', hq', rfl⟩ := List.mem_map.mp hq
  obtain ⟨hh, he⟩ := mem_resample_snd hq'
  simpa [he] using bucketSum_nonneg hh (clampYields_nonneg (l := l))

/-- Claim C5: when the forecast year's real prices cover exactly months
1-9 and the prior year's prices cover months 10-12, the synthesized
forecast price series (partial forecast-year records concatenated with
prior-year months >= 10 shifted forward one year) covers all 12 months
and contains no two records sharing a timestamp. -/
theorem synth_prices_full_coverage (p25 p24 : List PriceRecord)
    (h25lo : ∀ r ∈ p25, 1 ≤ r.time.month) (h25hi : ∀ r ∈ p25, r.time.month ≤ 9)
    (h25cov : ∀ m ∈ List.range' 1 9, ∃ r ∈ p25, r.time.month = m)
    (h24cov : ∀ m ∈ List.range' 10 3, ∃ r ∈ p24, r.time.month = m)
    (h25nd : (p25.map (fun r => r.time)).Nodup)
    (h24nd : (p24.map (fun r => r.time)).Nodup) :
    (∀ m ∈ List.range' 1 12, ∃ r ∈ synthPrices p25 p24, r.time.month = m) ∧
    ((synthPrices p25 p24).map (fun r => r.time)).Nodup := by
  constructor
  · intro m hm
    obtain ⟨hm1, hm2⟩ := List.mem_range'_1.mp hm
    by_cases hm9 : m ≤ 9
    · obtain ⟨r, hr, hrm⟩ := h25cov m (List.mem_range'_1.mpr ⟨hm1, by omega⟩)
      exact ⟨r, List.mem_append_left _ hr, hrm⟩
    · obtain ⟨r, hr, hrm⟩ := h24cov m (List.mem_range'_1.mpr ⟨by omega, by omega⟩)
      refine ⟨{ r with time := shiftYearPlusOne r.time }, ?_, ?_⟩
      · apply List.mem_append_right
        exact List.mem_map_of_mem _ (List.mem_filter.mpr ⟨hr, by simp [hrm]; omega⟩)
      · simpa [shiftYearPlusOne] using hrm
  · have hmap : (synthPrices p25 p24).map (fun r => r.time) =
        p25.map (fun r => r.time) ++
          (((p24.filter (fun r => 10 ≤ r.time.month)).map (fun r => r.time)).map
            shiftYearPlusOne) := by
      simp [synthPrices, List.map_map]
    rw [hmap, List.nodup_append]
    have hinj : Function.Injective shiftYearPlusOne := by
      intro a b hab
      cases a; cases b
      simpa [shiftYearPlusOne, HTime.mk.injEq] using hab
    refine ⟨h25nd, ?_, ?_⟩
    · exact ((h24nd.sublist ((List.filter_sublist p24).map _)).map hinj)
    · intro t ht1 ht2
      obtain ⟨r, hr, rfl⟩ := List.mem_map.mp ht1
      obtain ⟨t', ht', hts⟩ := List.mem_map.mp ht2
      obtain ⟨r', hr', rfl⟩ := List.mem_map.mp ht'
      have h1 : r.time.month ≤ 9 := h25hi r hr
      have h2 : 10 ≤ r'.time.month := by
        have := (List.mem_filter.mp hr').2
        simpa using this
      have : r'.time.month = r.time.month := by
        have := congrArg HTime.month hts
        simpa [shiftYearPlusOne] using this
      omega

theorem rowsForProject_fields (dfs : List (Nat × List PriceRecord)) (name : String)
    (pv : List ProductionRecord) :
    ∀ row ∈ rowsForProject dfs name pv,
      row.projekt = name ∧ totalProduction (mergedOf dfs pv row.jahr) ≠ 0 := by
  intro row hrow
  rcases List.mem_append.mp hrow with hh | hf
  · obtain ⟨y, _, hy⟩ := List.mem_filterMap.mp hh
    unfold histRow at hy
    split at hy
    · cases hy
    · rename_i priceDf hpl
      split at hy
      · dsimp only at hy
        split at hy
        · cases hy
        · rename_i hT
          obtain rfl := Option.some.inj hy
          refine ⟨rfl, ?_⟩
          simpa [mergedOf, mergedFor, hpl] using hT
      · cases hy
  · rw [Option.mem_toList, Option.mem_def] at hf
    unfold forecastRow at hf
    split at hf
    · rename_i p25 p24 hpl25 hpl24
      split at hf
      · dsimp only at hf
        split at hf
        · rename_i hT
          obtain rfl := Option.some.inj hf
          refine ⟨rfl, ?_⟩
          simp only [mergedOf, forecastMerged, hpl25, hpl24, Option.getD_some]
          exact ne_of_gt hT
        · cases hf
      · cases hf
    · cases hf

/-- Claim C6: for every project and every year label (historical or
forecast), if the merged record set of that (project, year) has zero
total production, then no row for that pair appears in the yearly result
set - the pair is absent rather than present with an undefined specific
revenue. -/
theorem zero_production_pair_absent (dfs : List (Nat × List PriceRecord))
    (projects : List (String × List ProductionRecord)) (p : String)
    (pv : List ProductionRecord) (j : Jahr)
    (hnd : (projects.map (fun pr => pr.1)).Nodup)
    (hmem : (p, pv) ∈ projects)
    (h0 : totalProduction (mergedOf dfs pv j) = 0) :
    ∀ row ∈ yearlyRows dfs projects, ¬(row.projekt = p ∧ row.jahr = j) := by
  intro row hrow hpj
  obtain ⟨pr, hpr, hrow2⟩ := List.mem_flatMap.mp hrow
  obtain ⟨n, pv'⟩ := pr
  obtain ⟨hname, hT⟩ := rowsForProject_fields dfs n pv' row hrow2
  have hn : n = p := by rw [← hname, hpj.1]
  subst hn
  have hpv : pv' = pv := keys_nodup_eq hnd hpr hmem
  subst hpv
  rw [hpj.2] at hT
  exact hT h0

theorem bucketOf_mul (h : Nat) : bucketOf (h * 60) = h :=
  Nat.mul_div_cancel h (by norm_num)

theorem foldl_min_le_init (l : List Nat) : ∀ a : Nat, l.foldl min a ≤ a := by
  induction l with
  | nil => intro a; exact Nat.le_refl a
  | cons b t ih => intro a; exact Nat.le_trans (ih (min a b)) (Nat.min_le_left a b)

theorem init_le_foldl_max (l : List Nat) : ∀ a : Nat, a ≤ l.foldl max a := by
  induction l with
  | nil => intro a; exact Nat.le_refl a
  | cons b t ih => intro a; exact Nat.le_trans (Nat.le_max_left a b) (ih (max a b))

theorem foldl_min_const (l : List Nat) : ∀ a : Nat, (∀ x ∈ l, a ≤ x) → l.foldl min a = a := by
  induction l with
  | nil => intro a _; rfl
  | cons b t ih =>
    intro a h
    rw [List.foldl_cons, min_eq_left (h b (List.mem_cons_self b t))]
    exact ih a (fun x hx => h x (List.mem_cons_of_mem b hx))

theorem foldl_max_range' : ∀ (n s : Nat), (List.range' (s+1) n).foldl max s = s + n := by
  intro n
  induction n with
  | zero => intro s; rfl
  | succ k ih =>
    intro s
    rw [List.range'_succ, List.foldl_cons, max_eq_right (Nat.le_succ s), ih (s+1)]
    omega

theorem filter_eq_singleton_of_nodup : ∀ {l : List Nat} {a : Nat}, l.Nodup → a ∈ l →
    l.filter (fun x => x = a) = [a] := by
  intro l
  induction l with
  | nil => intro a _ ha; cases ha
  | cons b t ih =>
    intro a hnd ha
    rw [List.nodup_cons] at hnd
    by_cases hba : b = a
    · subst hba
      rw [List.filter_cons_of_pos (by simp)]
      have ht : t.filter (fun x => x = b) = [] := by
        rw [List.filter_eq_nil_iff]
        intro x hx
        simp only [decide_eq_true_eq]
        intro hxb
        exact hnd.1 (hxb ▸ hx)
      rw [ht]
    · rw [List.filter_cons_of_neg (by simp [hba])]
      refine ih hnd.2 ?_
      rcases List.mem_cons.mp ha with h | h
      · exact absurd h.symm hba
      · exact h

theorem resampleHourly_nonempty (l : List (Nat × Rat)) (he : l.isEmpty = false) :
    resampleHourly l =
      (List.range'
        ((l.map (fun p => bucketOf p.1)).foldl min ((l.map (fun p => bucketOf p.1)).headD 0))
        (((l.map (fun p => bucketOf p.1)).foldl max ((l.map (fun p => bucketOf p.1)).headD 0))
          - ((l.map (fun p => bucketOf p.1)).foldl min ((l.map (fun p => bucketOf p.1)).headD 0))
          + 1)).map
        (fun h => (h * 60, bucketSum l h)) := by
  unfold resampleHourly
  rw [if_neg (by simp [he])]
  dsimp only
  generalize l.map (fun p => bucketOf p.1) = bks
  have h1 := foldl_min_le_init bks (bks.headD 0)
  have h2 := init_le_foldl_max bks (bks.headD 0)
  have harith : bks.foldl max (bks.headD 0) + 1 - bks.foldl min (bks.headD 0)
      = bks.foldl max (bks.headD 0) - bks.foldl min (bks.headD 0) + 1 := by omega
  rw [harith]

theorem resample_grid (n s : Nat) (g : Nat → Rat) :
    resampleHourly ((List.range' s (n+1)).map (fun h => (h * 60, g h))) =
      (List.range' s (n+1)).map (fun h => (h * 60, g h)) := by
  have hbks : ((List.range' s (n+1)).map (fun h => (h * 60, g h))).map (fun p => bucketOf p.1)
      = List.range' s (n+1) := by
    rw [List.map_map]
    have he : ((fun p : Nat × Rat => bucketOf p.1) ∘ (fun h => (h * 60, g h)))
        = fun h : Nat => h := by
      funext hh
      exact bucketOf_mul hh
    rw [he, List.map_id']
  have hne : ((List.range' s (n+1)).map (fun h => (h * 60, g h))).isEmpty = false := by
    rw [List.range'_succ]
    rfl
  have hlo : (List.range' s (n+1)).foldl min ((List.range' s (n+1)).headD 0) = s := by
    rw [List.range'_succ]
    simp only [List.headD_cons, List.foldl_cons, Nat.min_self]
    exact foldl_min_const _ s (fun x hx => by
      have := (List.mem_range'_1.mp hx).1
      omega)
  have hhi : (List.range' s (n+1)).foldl max ((List.range' s (n+1)).headD 0) = s + n := by
    rw [List.range'_succ]
    simp only [List.headD_cons, List.foldl_cons, Nat.max_self]
    exact foldl_max_range' n s
  have hsum : ∀ hh ∈ List.range' s (n+1),
      bucketSum ((List.range' s (n+1)).map (fun h => (h * 60, g h))) hh = g hh := by
    intro hh hmem
    unfold bucketSum
    rw [List.filter_map]
    have hpred : List.filter
          ((fun p : Nat × Rat => decide (bucketOf p.1 = hh)) ∘ (fun h : Nat => (h * 60, g h)))
          (List.range' s (n+1))
        = List.filter (fun h : Nat => h = hh) (List.range' s (n+1)) :=
      List.filter_congr (fun x _ => by simp [Function.comp, bucketOf_mul])
    rw [hpred, filter_eq_singleton_of_nodup (List.nodup_range' s (n+1)) hmem]
    simp
  rw [resampleHourly_nonempty _ hne, hbks, hlo, hhi]
  have harith : s + n - s + 1 = n + 1 := by omega
  rw [harith]
  exact List.map_congr_left (fun hh hmem => by rw [hsum hh hmem])

/-- Claim C9: the hourly sum-resampling step is idempotent on series
already at hourly granularity: applying it twice yields the same series
as applying it once. -/
theorem resample_idempotent (l : List (Nat × Rat)) (hgrid : ∀ p ∈ l, p.1 % 60 = 0) :
    resampleHourly (resampleHourly l) = resampleHourly l := by
  by_cases he : l.isEmpty = true
  · rw [List.isEmpty_iff.mp he]
    rfl
  · rw [resampleHourly_nonempty l (Bool.eq_false_iff.mpr he)]
    exact resample_grid _ _ _

/-! ## Witnesses -/

theorem stale_selection_falls_back_wit :
    resolveSelection (some "X") ["A", "B"] = (["A", "B"] : List String).head? ∧
      ((["A", "B"] : List String).head?).isSome = true :=
  stale_selection_falls_back (some "X") ["A", "B"] (by simp)
    (fun s hs => by
      obtain rfl := Option.some.inj hs
      decide)

theorem monthly_breakdown_all_months_wit :
    (monthlyRow [] 1).produktionKwh = 0 ∧ (monthlyRow [] 1).spezErloesSpot = 0 ∧
      (monthlyRow [] 1).spezErloesMPJahr = 0 :=
  (monthly_breakdown_all_months []).2.2 (monthlyRow [] 1)
    (List.mem_map_of_mem (monthlyRow []) (by decide)) rfl

theorem yearly_premium_variant_formula_wit :
    specificRevenueYear wMerged (some 5) =
      round2 ((((wMerged.filter (fun r => 0 ≤ r.spot)).map (fun r => r.yieldKwh * r.spot)).sum
        + max (ANZULEGENDER_WERT - 5) 0
          * ((wMerged.filter (fun r => 0 ≤ r.spot)).map (fun r => r.yieldKwh)).sum)
        / totalProduction wMerged) :=
  yearly_premium_variant_formula wMerged 5 (by norm_num [totalProduction, wMerged])

theorem spot_revenue_ignores_negative_hours_wit :
    (monthlyRow wMerged 1).spezErloesSpot =
      round2 ((((wMerged.filter (fun r => 0 ≤ r.spot)).map (fun r => r.yieldKwh * r.spot)).sum)
        / totalProduction wMerged) :=
  (spot_revenue_ignores_negative_hours wMerged 1 (by decide)
    (by norm_num [totalProduction, wMerged])).1

theorem monthly_premium_is_yearly_variant_wit :
    (monthlyRow wMerged 1).spezErloesMPJahr =
      round2 ((((wMerged.filter (fun r => 0 ≤ r.spot)).map (fun r => r.yieldKwh * r.spot)).sum
        + max (ANZULEGENDER_WERT - mvYearly2025) 0
          * ((wMerged.filter (fun r => 0 ≤ r.spot)).map (fun r => r.yieldKwh)).sum)
        / totalProduction wMerged) :=
  monthly_premium_is_yearly_variant wMerged 1 (by decide)
    (by norm_num [totalProduction, wMerged])

theorem preprocess_pv_yield_nonneg_wit : (0 : Rat) ≤ ((60, (0 : Rat)) : Nat × Rat).2 :=
  preprocess_pv_yield_nonneg [(0, -5)] (60, 0)
    (by norm_num [preprocess_pv_data, resampleHourly, clampYields, bucketSum, bucketOf])

theorem synth_prices_full_coverage_wit :
    ((synthPrices w25 w24).map (fun r => r.time)).Nodup :=
  (synth_prices_full_coverage w25 w24 (by decide) (by decide) (by decide) (by decide)
    (by decide) (by decide)).2

theorem zero_production_pair_absent_wit :
    ¬(rowW.projekt = "A" ∧ rowW.jahr = Jahr.year 2022) :=
  zero_production_pair_absent dfsW projectsW "A" pvW (Jahr.year 2022)
    (by simp [projectsW]) (by simp [projectsW]) rfl rowW
    (by
      have hg : totalProduction (merge
          (pvYear ([{ time := { year := 2021, month := 1, slot := 0 }, yieldKwh := 100 }] :
            List ProductionRecord) 2021)
          ([{ time := { year := 2021, month := 1, slot := 0 }, spot := 10 }] :
            List PriceRecord)) ≠ 0 := by
        norm_num [totalProduction, merge, pvYear]
      simp [yearlyRows, projectsW, rowsForProject, histRow, forecastRow, priceLookup, dfsW,
        hasYear, pvW, mergedFor, hg, rowW])

theorem resample_idempotent_wit :
    resampleHourly (resampleHourly [((0 : Nat), (1 : Rat))]) = resampleHourly [(0, 1)] :=
  resample_idempotent [(0, 1)] (by decide)

end Wirtschaftlichkeit
